import Mathlib

/-!
Verification of the phishing-URL detection pipeline
(`src/features.py`, `src/inference.py`, `api/app.py`).

Strings are modelled as Lean `String` / `List Char`; Python numeric
values (int / float probabilities) are modelled as exact rationals `ℚ`,
and where an exact-equality claim is sensitive to rounding, the source's
IEEE-754 binary64 arithmetic is modelled explicitly (`fl64`, `fmul`).
-/

namespace Phishing

/-- Embedding of Python `str.lower()` (ASCII case folding, which covers
every character the scheme check can match). Source: `api/app.py` line 15. -/
def pyLower (s : String) : String :=
  ⟨s.data.map Char.toLower⟩

/-- Predicate `startsWithL pat l` : does the character list `l` begin with
`pat`? Embedding of Python `str.startswith` on the character level. -/
def startsWithL : List Char → List Char → Bool
  | [], _ => true
  | _ :: _, [] => false
  | p :: ps, c :: cs => p == c && startsWithL ps cs

/-- Embedding of Python `s.startswith(pre)`. -/
def pyStartsWith (s pre : String) : Bool :=
  startsWithL pre.data s.data

/-- Embedding of `apply_protocol_rule` (`api/app.py` lines 9-22):
lower-case the URL; `https://` scales the probability by 0.4,
`http://` scales it by 1.3 capped at 1, anything else leaves it alone. -/
def apply_protocol_rule (url : String) (prob : ℚ) : ℚ :=
  let u := pyLower url
  if pyStartsWith u "https://" then prob * 0.4
  else if pyStartsWith u "http://" then min (prob * 1.3) 1
  else prob

/-- C2: for every URL and probability, the heuristic performs a
case-insensitive scheme match on the lower-cased URL and returns
`p * 0.4` on an `https://` scheme (no clamp), `min (p * 1.3) 1` on an
`http://` scheme, and `p` unchanged on any other prefix. -/
theorem C2_protocol_rule_cases (url : String) (p : ℚ) :
    (pyStartsWith (pyLower url) "https://" = true →
      apply_protocol_rule url p = p * 0.4) ∧
    (pyStartsWith (pyLower url) "https://" = false →
      pyStartsWith (pyLower url) "http://" = true →
      apply_protocol_rule url p = min (p * 1.3) 1) ∧
    (pyStartsWith (pyLower url) "https://" = false →
      pyStartsWith (pyLower url) "http://" = false →
      apply_protocol_rule url p = p) := by
  unfold apply_protocol_rule
  refine ⟨fun h1 => ?_, fun h1 h2 => ?_, fun h1 h2 => ?_⟩
  · simp [h1]
  · simp [h1, h2]
  · simp [h1, h2]

/-- Witness for C2: the three branches realized on concrete inputs. -/
theorem C2_protocol_rule_cases_witness :
    apply_protocol_rule "HTTPS://Good.com" 0.9 = 0.9 * 0.4 ∧
    apply_protocol_rule "http://bad.com" 0.9 = min (0.9 * 1.3) 1 ∧
    apply_protocol_rule "ftp://x" 0.5 = 0.5 := by
  refine ⟨(C2_protocol_rule_cases "HTTPS://Good.com" 0.9).1 (by decide),
          (C2_protocol_rule_cases "http://bad.com" 0.9).2.1 (by decide) (by decide),
          (C2_protocol_rule_cases "ftp://x" 0.5).2.2 (by decide) (by decide)⟩

/-- Bring the positive fraction `n / d` into `[2^52, 2^53)` by doubling the
numerator or the denominator, tracking the binary exponent `k` so that the
value `(n / d) * 2^k` is preserved. Fuel-bounded structural recursion; the
fuel is ample for every double-precision magnitude. -/
def normalizeFrac : ℕ → ℤ → ℤ → ℤ → (ℤ × ℤ × ℤ)
  | 0, n, d, k => (n, d, k)
  | fuel + 1, n, d, k =>
      if n < 4503599627370496 * d then normalizeFrac fuel (2 * n) d (k - 1)
      else if 9007199254740992 * d ≤ n then normalizeFrac fuel n (2 * d) (k + 1)
      else (n, d, k)

/-- Round the positive fraction `n / d` to the nearest integer, ties to
even — the IEEE-754 rounding of a normalized significand. -/
def roundMant (n d : ℤ) : ℤ :=
  let q := n / d
  let r := n - q * d
  if 2 * r < d then q
  else if d < 2 * r then q + 1
  else if q % 2 = 0 then q else q + 1

/-- The IEEE-754 binary64 (Python `float`) value nearest the rational
`num / den` (`den > 0`): round-to-nearest, ties-to-even, at a 53-bit
significand. Overflow and subnormals are not modelled; every quantity in
the heuristic is of magnitude between 0.3 and 1.2, far inside the normal
range. Python parses a decimal literal such as `0.9` to `fl64 9 10`. -/
def fl64 (num den : ℤ) : ℚ :=
  if num = 0 then 0
  else
    let s : ℤ := if 0 < num then 1 else -1
    let p := normalizeFrac 4400 (s * num) den 0
    let m := roundMant p.1 p.2.1
    let k := p.2.2
    if 0 ≤ k then ((s * m * 2 ^ k.toNat : ℤ) : ℚ)
    else Rat.divInt (s * m) (2 ^ (-k).toNat)

/-- IEEE-754 binary64 multiplication: the exact product of the two double
values, rounded back to a double. -/
def fmul (a b : ℚ) : ℚ := fl64 (a.num * b.num) ((a.den : ℤ) * (b.den : ℤ))

/-- The protocol heuristic `apply_protocol_rule` (`api/app.py` lines 9-22)
under the source's actual float semantics: the branch structure is
unchanged, but the multiplications by the double constants `0.4` and `1.3`
round to binary64. (Python's `min(x, 1)` compares the float and the
integer exactly, so `min` on `ℚ` models it.) -/
def apply_protocol_rule_float (url : String) (prob : ℚ) : ℚ :=
  let u := pyLower url
  if pyStartsWith u "https://" then fmul prob (fl64 4 10)
  else if pyStartsWith u "http://" then min (fmul prob (fl64 13 10)) 1
  else prob

/-- C5 counterexample: under the program's IEEE-754 double arithmetic the
claimed exact equality `adjust("https://good.com", 0.9) == 0.36` is false:
the program computes the double `0.36000000000000004`, which differs from
the double `0.36`. -/
theorem C5_float_counterexample :
    apply_protocol_rule_float "https://good.com" (fl64 9 10) ≠ fl64 36 100 := by
  decide

set_option maxRecDepth 10000 in
/-- C5 (amended): under IEEE-754 binary64 arithmetic the protocol heuristic
satisfies the exact equalities
`adjust("https://good.com", 0.9) = 6485183463413515/2^54`
(the double printed `0.36000000000000004`, one unit in the last place above
the double `0.36 = 6485183463413514/2^54`),
`adjust("http://bad.com", 0.9) = 1` (clamped from the double
`5269211564023481/2^52`, printed `1.1700000000000002`), and
`adjust("ftp://x", 0.5) = 0.5` (unchanged; `0.5` is exactly representable). -/
theorem C5_protocol_rule_float_values :
    apply_protocol_rule_float "https://good.com" (fl64 9 10)
      = Rat.divInt 6485183463413515 18014398509481984 ∧
    fl64 36 100 = Rat.divInt 6485183463413514 18014398509481984 ∧
    apply_protocol_rule_float "http://bad.com" (fl64 9 10) = 1 ∧
    fmul (fl64 9 10) (fl64 13 10) = Rat.divInt 5269211564023481 4503599627370496 ∧
    apply_protocol_rule_float "ftp://x" (fl64 5 10) = fl64 5 10 ∧
    fl64 5 10 = Rat.divInt 1 2 := by
  decide

/-- C7: the heuristic keeps a probability inside `[0, 1]`. -/
theorem C7_protocol_rule_bounds (url : String) (p : ℚ)
    (h0 : 0 ≤ p) (h1 : p ≤ 1) :
    0 ≤ apply_protocol_rule url p ∧ apply_protocol_rule url p ≤ 1 := by
  simp only [apply_protocol_rule]
  split_ifs
  · constructor <;> nlinarith
  · exact ⟨le_min (by nlinarith) (by norm_num), min_le_right _ _⟩
  · exact ⟨h0, h1⟩

/-- Witness for C7 at a concrete URL and probability. -/
theorem C7_protocol_rule_bounds_witness :
    0 ≤ apply_protocol_rule "http://bad.com" 0.9 ∧
    apply_protocol_rule "http://bad.com" 0.9 ≤ 1 :=
  C7_protocol_rule_bounds "http://bad.com" 0.9 (by norm_num) (by norm_num)

/-- Start positions of the matches of `re.finditer` for the two-character
pattern `ab` in a character list: leftmost match first, and the scan resumes
after the end of each match (regex matches never overlap). Embeds
`[m.start() for m in re.finditer(r"//", s)]` from `src/features.py` line 49. -/
def finditerStarts (a b : Char) : List Char → Nat → List Nat
  | x :: y :: rest, i =>
      if x = a ∧ y = b then i :: finditerStarts a b rest (i + 2)
      else finditerStarts a b (y :: rest) (i + 1)
  | _, _ => []

/-- Embedding of `extract_features` (`src/features.py` lines 6-53): the
feature dictionary, as an association list in insertion order. Values are
rationals (Python ints and the final float). -/
def extract_features (url : String) : List (String × ℚ) :=
  let s := url.data
  [("url_length", (s.length : ℚ)),
   ("n_dots", (s.count '.' : ℚ)),
   ("n_hypens", (s.count '-' : ℚ)),
   ("n_underline", (s.count '_' : ℚ)),
   ("n_slash", (s.count '/' : ℚ)),
   ("n_questionmark", (s.count '?' : ℚ)),
   ("n_equal", (s.count '=' : ℚ)),
   ("n_at", (s.count '@' : ℚ)),
   ("n_and", (s.count '&' : ℚ)),
   ("n_exclamation", (s.count '!' : ℚ)),
   ("n_space", (s.count ' ' : ℚ)),
   ("n_tilde", (s.count '~' : ℚ)),
   ("n_comma", (s.count ',' : ℚ)),
   ("n_plus", (s.count '+' : ℚ)),
   ("n_asterisk", (s.count '*' : ℚ)),
   ("n_hastag", (s.count '#' : ℚ)),
   ("n_dollar", (s.count '$' : ℚ)),
   ("n_percent", (s.count '%' : ℚ)),
   ("n_redirection",
     ((max 0 (((finditerStarts '/' '/' s 0).length : ℤ) - 1) : ℤ) : ℚ))]

/-- The fixed list of feature names produced by `extract_features`,
in insertion order. There are 19 of them (`url_length`, seventeen
single-character counts, `n_redirection`). -/
def featureNames : List String :=
  ["url_length", "n_dots", "n_hypens", "n_underline", "n_slash",
   "n_questionmark", "n_equal", "n_at", "n_and", "n_exclamation",
   "n_space", "n_tilde", "n_comma", "n_plus", "n_asterisk",
   "n_hastag", "n_dollar", "n_percent", "n_redirection"]

/-- C10: `extract_features` is a pure function of the character content
of its argument: any two calls on equal strings (in particular, two calls
on the same string) yield identical mappings. -/
theorem C10_extract_deterministic (u v : String) (h : u.data = v.data) :
    extract_features u = extract_features v := by
  unfold extract_features
  rw [h]

/-- Witness for C10: two calls on the literal `"a.b"` agree. -/
theorem C10_extract_deterministic_witness :
    extract_features "a.b" = extract_features "a.b" :=
  C10_extract_deterministic "a.b" "a.b" rfl

/-- Embedding of `build_feature_dataframe` (`src/inference.py` lines 27-46):
extract the features, collect the expected columns absent from the feature
dictionary, raise (model: `Except.error`) with the full missing list if any,
otherwise select the feature values in exactly the order of
`feature_columns` (the single-row dataframe reindexed by `df[feature_columns]`). -/
def build_feature_dataframe (feature_columns : List String) (url : String) :
    Except (List String) (List ℚ) :=
  let feats_dict := extract_features url
  let missing := feature_columns.filter (fun col => (feats_dict.lookup col).isNone)
  if missing ≠ [] then Except.error missing
  else Except.ok (feature_columns.filterMap (fun col => feats_dict.lookup col))

/-- Embedding of `predict_url` (`src/inference.py` lines 49-61). The trained
classifier is opaque, so its `predict_proba`-for-class-1 scoring is a
parameter. Returns the pair (label at the internal 0.5 cutoff, raw
phishing probability). -/
def predict_url (predict_proba : List ℚ → ℚ) (feature_columns : List String)
    (url : String) : Except (List String) (ℕ × ℚ) :=
  match build_feature_dataframe feature_columns url with
  | Except.error e => Except.error e
  | Except.ok df =>
      let proba_phishing := predict_proba df
      Except.ok (if proba_phishing ≥ 0.5 then 1 else 0, proba_phishing)

/-- Python's banker's rounding (`round`, half to even) on a rational. -/
def roundHalfEven (q : ℚ) : ℤ :=
  if q - ⌊q⌋ < 1 / 2 then ⌊q⌋
  else if (1 : ℚ) / 2 < q - ⌊q⌋ then ⌊q⌋ + 1
  else if ⌊q⌋ % 2 = 0 then ⌊q⌋ else ⌊q⌋ + 1

/-- Embedding of Python `round(x, 4)`. -/
def pyRound4 (q : ℚ) : ℚ :=
  (roundHalfEven (q * 10000) : ℚ) / 10000

/-- The JSON body returned by the `/predict` endpoint
(`api/app.py` lines 264-270). -/
structure PredictResponse where
  url : String
  label : ℕ
  prediction : String
  probability_phishing : ℚ
  model_probability : ℚ

/-- Embedding of the `/predict` handler (`api/app.py` lines 251-270):
run `predict_url`, apply the protocol rule to the raw probability, decide
the final label at the 0.6 threshold, and report both (rounded)
probabilities. -/
def predict (predict_proba : List ℚ → ℚ) (feature_columns : List String)
    (url : String) : Except (List String) PredictResponse :=
  match predict_url predict_proba feature_columns url with
  | Except.error e => Except.error e
  | Except.ok (_raw_label, raw_prob) =>
      let final_prob := apply_protocol_rule url raw_prob
      let final_label : ℕ := if final_prob ≥ 0.6 then 1 else 0
      Except.ok
        { url := url
          label := final_label
          prediction := if final_label = 1 then "phishing" else "legitimate"
          probability_phishing := pyRound4 final_prob
          model_probability := pyRound4 raw_prob }

/-- Path `os.path.join("models", "phishing_rf.pkl")` (`src/inference.py` line 10). -/
def MODEL_PATH : String := "models/phishing_rf.pkl"

/-- Path `os.path.join("models", "feature_columns.pkl")` (`src/inference.py` line 11). -/
def FEATURE_COLS_PATH : String := "models/feature_columns.pkl"

/-- A single-quote character, as a string. -/
def squote : String := String.singleton '\''

/-- The error message raised when the model file is absent
(`src/inference.py` lines 17-18); it names the missing path. -/
def modelMissingMsg : String :=
  "Model file not found at " ++ MODEL_PATH ++ ". Make sure phishing_rf.pkl is in the "
    ++ squote ++ "models" ++ squote ++ " folder."

/-- The error message raised when the feature-column file is absent
(`src/inference.py` lines 23-24); it names the missing path. -/
def colsMissingMsg : String :=
  "Feature columns file not found at " ++ FEATURE_COLS_PATH
    ++ ". Make sure feature_columns.pkl is in the " ++ squote ++ "models" ++ squote ++ " folder."

/-- Embedding of the module-level artifact loading of `src/inference.py`
(lines 14-24), run at import time, before any request can be handled. The
filesystem is modelled as a map from paths to optionally-present artifact
contents; a missing file makes initialization fail with the corresponding
descriptive error, so no `(model, feature_columns)` pair ever exists. -/
def loadArtifacts {A : Type} (fs : String → Option A) : Except String (A × A) :=
  match fs MODEL_PATH with
  | none => Except.error modelMissingMsg
  | some model =>
      match fs FEATURE_COLS_PATH with
      | none => Except.error colsMissingMsg
      | some feature_columns => Except.ok (model, feature_columns)

/-- The `/predict` handler on a successfully built feature frame. -/
theorem predict_ok_form (score : List ℚ → ℚ) (cols : List String) (url : String)
    (df : List ℚ) (hdf : build_feature_dataframe cols url = Except.ok df) :
    predict score cols url = Except.ok
      { url := url
        label := if apply_protocol_rule url (score df) ≥ 0.6 then 1 else 0
        prediction := if (if apply_protocol_rule url (score df) ≥ 0.6 then (1 : ℕ) else 0) = 1
          then "phishing" else "legitimate"
        probability_phishing := pyRound4 (apply_protocol_rule url (score df))
        model_probability := pyRound4 (score df) } := by
  unfold predict predict_url
  rw [hdf]

/-- Value of `predict_url` on a successfully built feature frame. -/
theorem predict_url_ok_form (score : List ℚ → ℚ) (cols : List String) (url : String)
    (df : List ℚ) (hdf : build_feature_dataframe cols url = Except.ok df) :
    predict_url score cols url = Except.ok (if score df ≥ 0.5 then 1 else 0, score df) := by
  unfold predict_url
  rw [hdf]

/-- C3: the final label is phishing (1) exactly when the adjusted
probability is at least 0.6 (adjusted 0.59 gives label 0, 0.60 gives
label 1); the internal 0.5 cutoff is applied only to the unadjusted model
probability (the label returned by `predict_url`), and both probabilities
with both implied labels are outputs of the pipeline (`predict_url`
returns the raw pair; the response carries the final label and both
rounded probabilities). -/
theorem C3_decision_thresholds (score : List ℚ → ℚ) (cols : List String) (url : String)
    (resp : PredictResponse) (h : predict score cols url = Except.ok resp) :
    (∃ raw_prob,
      predict_url score cols url = Except.ok (if raw_prob ≥ 0.5 then 1 else 0, raw_prob) ∧
      ((if raw_prob ≥ 0.5 then (1 : ℕ) else 0) = 1 ↔ raw_prob ≥ 0.5) ∧
      resp.label = (if apply_protocol_rule url raw_prob ≥ 0.6 then 1 else 0) ∧
      (resp.label = 1 ↔ apply_protocol_rule url raw_prob ≥ 0.6) ∧
      resp.probability_phishing = pyRound4 (apply_protocol_rule url raw_prob) ∧
      resp.model_probability = pyRound4 raw_prob) ∧
    (∃ r, predict (fun _ => (0.59 : ℚ)) featureNames "x" = Except.ok r ∧ r.label = 0) ∧
    (∃ r, predict (fun _ => (0.60 : ℚ)) featureNames "x" = Except.ok r ∧ r.label = 1) := by
  refine ⟨?_, ?_, ?_⟩
  · cases hb : build_feature_dataframe cols url with
    | error e =>
        exfalso
        unfold predict predict_url at h
        rw [hb] at h
        exact Except.noConfusion h
    | ok df =>
        have hp := predict_ok_form score cols url df hb
        rw [h] at hp
        have hr := Except.ok.inj hp
        refine ⟨score df, predict_url_ok_form score cols url df hb, ?_, ?_, ?_, ?_, ?_⟩
        · split_ifs with hge <;> simp [hge]
        · rw [hr]
        · rw [hr]
          show (if apply_protocol_rule url (score df) ≥ 0.6 then (1 : ℕ) else 0) = 1 ↔
            apply_protocol_rule url (score df) ≥ 0.6
          split_ifs with hge <;> simp [hge]
        · rw [hr]
        · rw [hr]
  · obtain ⟨df, hdf⟩ : ∃ df, build_feature_dataframe featureNames "x" = Except.ok df := ⟨_, rfl⟩
    refine ⟨_, predict_ok_form (fun _ => (0.59 : ℚ)) featureNames "x" df hdf, ?_⟩
    have hadj : apply_protocol_rule "x" (0.59 : ℚ) = 0.59 := by
      have h1 : pyStartsWith (pyLower "x") "https://" = false := by decide
      have h2 : pyStartsWith (pyLower "x") "http://" = false := by decide
      simp [apply_protocol_rule, h1, h2]
    show (if apply_protocol_rule "x" (0.59 : ℚ) ≥ 0.6 then (1 : ℕ) else 0) = 0
    rw [hadj, if_neg (by norm_num)]
  · obtain ⟨df, hdf⟩ : ∃ df, build_feature_dataframe featureNames "x" = Except.ok df := ⟨_, rfl⟩
    refine ⟨_, predict_ok_form (fun _ => (0.60 : ℚ)) featureNames "x" df hdf, ?_⟩
    have hadj : apply_protocol_rule "x" (0.60 : ℚ) = 0.60 := by
      have h1 : pyStartsWith (pyLower "x") "https://" = false := by decide
      have h2 : pyStartsWith (pyLower "x") "http://" = false := by decide
      simp [apply_protocol_rule, h1, h2]
    show (if apply_protocol_rule "x" (0.60 : ℚ) ≥ 0.6 then (1 : ℕ) else 0) = 1
    rw [hadj, if_pos (by norm_num)]

/-- Witness for C3: a stub classifier returning 0.59 on the scheme-less
URL `"x"` produces final label 0. -/
theorem C3_decision_thresholds_witness :
    ∃ r, predict (fun _ => (0.59 : ℚ)) featureNames "x" = Except.ok r ∧ r.label = 0 := by
  obtain ⟨df, hdf⟩ : ∃ df, build_feature_dataframe featureNames "x" = Except.ok df := ⟨_, rfl⟩
  obtain ⟨resp, hresp⟩ : ∃ resp,
      predict (fun _ => (0.59 : ℚ)) featureNames "x" = Except.ok resp :=
    ⟨_, predict_ok_form (fun _ => (0.59 : ℚ)) featureNames "x" df hdf⟩
  exact (C3_decision_thresholds (fun _ => (0.59 : ℚ)) featureNames "x" resp hresp).2.1

/-- C8: if either startup artifact (the model file or the feature-column
file) is absent from the filesystem, initialization fails with the
descriptive error naming the missing resource path, and no loaded
`(model, feature_columns)` pair — hence no prediction — can be produced. -/
theorem C8_startup_failure {A : Type} (fs : String → Option A)
    (h : fs MODEL_PATH = none ∨ fs FEATURE_COLS_PATH = none) :
    (∀ r, loadArtifacts fs ≠ Except.ok r) ∧
    (fs MODEL_PATH = none → loadArtifacts fs = Except.error modelMissingMsg) ∧
    (fs MODEL_PATH ≠ none → fs FEATURE_COLS_PATH = none →
      loadArtifacts fs = Except.error colsMissingMsg) := by
  refine ⟨?_, ?_, ?_⟩
  · intro r hr
    unfold loadArtifacts at hr
    rcases h with h | h
    · rw [h] at hr
      exact Except.noConfusion hr
    · cases hm : fs MODEL_PATH with
      | none =>
          rw [hm] at hr
          exact Except.noConfusion hr
      | some m =>
          rw [hm, h] at hr
          exact Except.noConfusion hr
  · intro hm
    unfold loadArtifacts
    rw [hm]
  · intro hm hc
    cases hmm : fs MODEL_PATH with
    | none => exact absurd hmm hm
    | some m =>
        unfold loadArtifacts
        rw [hmm, hc]

/-- Witness for C8: an empty filesystem makes initialization fail with
the model-file error. -/
theorem C8_startup_failure_witness :
    loadArtifacts (fun _ : String => (none : Option Unit)) = Except.error modelMissingMsg :=
  (C8_startup_failure (fun _ : String => (none : Option Unit)) (Or.inl rfl)).2.1 rfl

end Phishing
